import Mathlib

/-!
Shallow embedding of the training harness in `main.py` of ECO-pytorch
(training loop with gradient accumulation and clipping, weight-transplant
resolution and gap fill, learning-rate step decay, checkpoint saving and
best-model promotion, metric accumulation, and the `main` configuration
pipeline), together with theorems settling the specification claims.

Real numbers of the program are modelled as exact rationals (`ℚ`); the
only obstacle to that, the square root inside the global gradient norm, is
handled by passing the norm as a value constrained by the hypothesis
`norm ^ 2 = sum of squared gradients`.
-/

namespace ECO

/-! ## Metric accumulator (`AverageMeter`, main.py lines 402-417) -/

/-- `AverageMeter`: running mean / last-value tracker, as in main.py. -/
structure AverageMeter where
  val : ℚ
  sum : ℚ
  count : ℚ
  avg : ℚ
  deriving Repr, DecidableEq

/-- `reset` / `__init__`: all fields zero. -/
def AverageMeter.reset : AverageMeter := ⟨0, 0, 0, 0⟩

/-- `update(val, n)`: `sum += val * n; count += n; avg = sum / count`. -/
def AverageMeter.update (m : AverageMeter) (v n : ℚ) : AverageMeter :=
  let s := m.sum + v * n
  let c := m.count + n
  ⟨v, s, c, s / c⟩

/-! ## Learning-rate scheduler (`adjust_learning_rate`, main.py lines 420-427) -/

/-- One optimizer parameter group: effective lr / weight decay together with
the group's multipliers (set up by `get_optim_policies`). -/
structure ParamGroup where
  lr : ℚ
  weight_decay : ℚ
  lr_mult : ℚ
  decay_mult : ℚ
  deriving Repr, DecidableEq

/-- `decay = 0.1 ** (sum(epoch >= np.array(lr_steps)))`: count the decay
thresholds already passed by `epoch`. -/
def decayFactor (epoch : Nat) (lr_steps : List Nat) : ℚ :=
  (1 / 10) ^ (lr_steps.countP (fun s => epoch ≥ s))

/-- The decayed base learning rate `lr = args.lr * decay`. -/
def decayedLr (baseLr : ℚ) (epoch : Nat) (lr_steps : List Nat) : ℚ :=
  baseLr * decayFactor epoch lr_steps

/-- `adjust_learning_rate(optimizer, epoch, lr_steps)`: set every group's
lr to `lr * lr_mult` and weight decay to `args.weight_decay * decay_mult`. -/
def adjust_learning_rate (baseLr baseDecay : ℚ) (epoch : Nat) (lr_steps : List Nat)
    (groups : List ParamGroup) : List ParamGroup :=
  let lr := decayedLr baseLr epoch lr_steps
  groups.map (fun g =>
    { g with lr := lr * g.lr_mult, weight_decay := baseDecay * g.decay_mult })

/-! ## Gradient clipping (`clip_grad_norm_` call, main.py lines 311-316, 321-324)

`torch.nn.utils.clip_grad_norm_` is library code outside this repository;
it is embedded by its documented contract: compute the global L2 norm of
all gradients, and if it exceeds the max-norm scale every gradient by
`max / norm`; it returns the pre-clip norm.  Since the L2 norm is a square
root, the embedding takes `norm` as an argument and the theorems constrain
it by `norm ^ 2 = Σ g_i ^ 2`. -/

/-- Gradient clipping: returns the rescaled gradients.  `norm` is the
global L2 norm of `grads` (constrained by hypothesis in the theorems). -/
def clip_grad_norm (maxNorm norm : ℚ) (grads : List ℚ) : List ℚ :=
  if norm > maxNorm then grads.map (fun g => g * (maxNorm / norm)) else grads

/-- The report the training loop prints after clipping (main.py 313-314,
323-324): when `total_norm > args.clip_gradient` it logs the pre-clip norm
and the coefficient `args.clip_gradient / total_norm`; otherwise nothing. -/
def clipReport (maxNorm norm : ℚ) : Option (ℚ × ℚ) :=
  if norm > maxNorm then some (norm, maxNorm / norm) else none

/-! ## Training loop optimizer interaction (`train`, main.py lines 277-326)

The loop body is embedded for one scalar parameter under a plain-SGD
optimizer configuration (momentum 0, weight decay 0, Nesterov off, no
gradient clipping configured), which is one admissible instantiation of
`torch.optim.SGD(policies, args.lr, ...)`: there `optimizer.step()` is
`p := p - lr * p.grad` and `optimizer.zero_grad()` is `p.grad := 0`.
`loss.backward()` adds the batch gradient into `p.grad`. -/

/-- Parameter and accumulated gradient of the single model parameter. -/
structure TrainState where
  p : ℚ
  g : ℚ
  deriving Repr, DecidableEq

/-- `optimizer.step()` for SGD with momentum 0 and weight decay 0. -/
def sgdStep (lr : ℚ) (s : TrainState) : TrainState :=
  { s with p := s.p - lr * s.g }

/-- `optimizer.zero_grad()`. -/
def zeroGrad (s : TrainState) : TrainState :=
  { s with g := 0 }

/-- One iteration of the batch loop in `train` (main.py 301-326) with
`args.clip_gradient = None`: `loss.backward()` accumulates the batch
gradient `gi`; when `i % iter_size == 0` the gradients are divided by
`iter_size` (if it is not 1), a step is taken and gradients are zeroed;
then line 326 takes a further, unconditional `optimizer.step()`. -/
def trainBatch (iter_size : Nat) (lr : ℚ) (i : Nat) (gi : ℚ) (s : TrainState) : TrainState :=
  let s := { s with g := s.g + gi }
  let s :=
    if i % iter_size = 0 then
      let s := if iter_size ≠ 1 then { s with g := s.g / (iter_size : ℚ) } else s
      zeroGrad (sgdStep lr s)
    else s
  sgdStep lr s

/-- The batch loop of `train` over the per-batch gradients `grads`
(`grads` lists the gradients of the batches actually processed, i.e.
with the final batch of the loader already discarded). -/
def trainEpoch (iter_size : Nat) (lr : ℚ) (grads : List ℚ) (s0 : TrainState) : TrainState :=
  grads.enum.foldl (fun s ig => trainBatch iter_size lr ig.1 ig.2 s) s0

/-- Reference behaviour the spec claims for gradient accumulation with
`iter_size = k`: after `k` batches, a single SGD step on the accumulated
gradient pre-divided by `k`. -/
def claimedAccumUpdate (k : Nat) (lr : ℚ) (grads : List ℚ) (p0 : ℚ) : ℚ :=
  p0 - lr * (grads.sum / (k : ℚ))

/-! ## Batch discarding and the epoch loops (`train` 277-280, `validate` 356-359) -/

/-- `len(loader)` for a PyTorch `DataLoader` with the default
`drop_last=False`: `ceil(num_samples / batch_size)`. -/
def loaderLen (numSamples batchSize : Nat) : Nat :=
  (numSamples + batchSize - 1) / batchSize

/-- The epoch loop of `train` / `validate`: `for i, batch in enumerate(loader)`
with `if i == len(loader) - 1: break` before any processing.  Folds `body`
over the indices of the batches actually processed. -/
def epochLoop {σ : Type _} (len : Nat) (body : Nat → σ → σ) (s0 : σ) : σ :=
  (List.range len).foldl (fun s i => if i = len - 1 then s else body i s) s0

/-- Number of batches an epoch loop over a loader of length `len` processes. -/
def processedBatches (len : Nat) : Nat :=
  epochLoop len (fun _ n => n + 1) 0

/-! ## Top-1 accuracy and the evaluation loop (`accuracy` 430-443, `validate` 343-391) -/

/-- `accuracy(output, target, topk=(1,))` for top-1, with the argmax of each
example's scores abstracted into the prediction list: the number of examples
whose prediction equals the target, times `100 / batch_size`. -/
def accuracyTop1 (preds targets : List Nat) : ℚ :=
  ((List.zipWith (fun p t => if p = t then (1 : ℚ) else 0) preds targets).sum)
    * (100 / (targets.length : ℚ))

/-- The metric-accumulation part of `validate`: each processed batch
contributes `top1.update(prec1, batch_size)`; the function returns
`top1.avg` (main.py line 391).  `batches` lists `(prec1, batch_size)` for
the processed batches. -/
def validateTop1 (batches : List (ℚ × ℚ)) : ℚ :=
  (batches.foldl (fun m b => m.update b.1 b.2) AverageMeter.reset).avg

/-! ## Checkpoint store (`save_checkpoint`, main.py lines 394-399) -/

/-- A file system, mapping filenames to contents; `fsWrite` overwrites. -/
def FileSys : Type := String → Option String

/-- Writing (or `shutil.copyfile`-ing onto) a file overwrites it. -/
def fsWrite (fs : FileSys) (name content : String) : FileSys :=
  fun n => if n = name then some content else fs n

/-- Python's `'_'.join`. -/
def joinUnd : List String → String
  | [] => ""
  | [s] => s
  | s :: rest => s ++ "_" ++ joinUnd rest

/-- Python's `str.lower()` (characterwise lowercasing). -/
def pyLower (s : String) : String := ⟨s.data.map Char.toLower⟩

/-- The checkpoint filename built at main.py line 395 (the default
`filename='checkpoint.pth.tar'` argument is never overridden). -/
def checkpointName (snapshot_pref modality : String) (epoch : Nat) : String :=
  joinUnd [snapshot_pref, pyLower modality, "epoch", toString epoch, "checkpoint.pth.tar"]

/-- The best-model filename built at main.py line 398. -/
def bestModelName (snapshot_pref modality : String) : String :=
  joinUnd [snapshot_pref, pyLower modality, "model_best.pth.tar"]

/-- `save_checkpoint(state, is_best)`: `torch.save` the state to the
epoch-indexed checkpoint file; when `is_best`, copy it onto the fixed
best-model file.  `state` is the serialized checkpoint content. -/
def save_checkpoint (snapshot_pref modality : String) (epoch : Nat) (state : String)
    (is_best : Bool) (fs : FileSys) : FileSys :=
  let filename := checkpointName snapshot_pref modality epoch
  let fs := fsWrite fs filename state
  if is_best then fsWrite fs (bestModelName snapshot_pref modality) state else fs

/-! ## Best-model promotion (`main`, lines 186-197) -/

/-- State carried across evaluated epochs: the recorded best top-1
accuracy and the file system. -/
structure PromoteState where
  best_prec1 : ℚ
  fs : FileSys

/-- The end-of-evaluated-epoch block of `main` (lines 190-197):
`is_best = prec1 > best_prec1; best_prec1 = max(prec1, best_prec1);
save_checkpoint({...}, is_best)`. -/
def promoteEpoch (snapshot_pref modality : String) (epoch : Nat) (stateRepr : String)
    (prec1 : ℚ) (s : PromoteState) : PromoteState :=
  let is_best : Bool := prec1 > s.best_prec1
  { best_prec1 := max prec1 s.best_prec1,
    fs := save_checkpoint snapshot_pref modality (epoch + 1) stateRepr is_best s.fs }

/-! ## Weight-transplant gap fill (`main`, lines 84-103)

Parameter states are association lists from parameter name to an entry
recording the tensor's shape and how its value was produced (values from
pretrained checkpoints and Xavier random draws are opaque; only the shape
and the initialization policy matter to the claims). -/

/-- First-match association-list lookup (Python dict access, with the
dictionaries built by insertion so the first binding wins in our lists). -/
def alookup {β : Type _} (k : String) : List (String × β) → Option β
  | [] => none
  | (k2, v) :: t => if k = k2 then some v else alookup k t

/-- Whether `needle` is a prefix of `hay` (character lists). -/
def listLeads : List Char → List Char → Bool
  | [], _ => true
  | _ :: _, [] => false
  | a :: as, b :: bs => a = b && listLeads as bs

/-- Whether `needle` occurs as a contiguous sublist of `hay`. -/
def listInfix (needle : List Char) : List Char → Bool
  | [] => listLeads needle []
  | b :: t => listLeads needle (b :: t) || listInfix needle t

/-- Python's `sub in s` on strings. -/
def strContains (s sub : String) : Bool :=
  listInfix sub.toList s.toList

/-- How a parameter's initial value was produced. -/
inductive InitKind
  /-- copied from a pretrained checkpoint -/
  | pretrained
  /-- `constant_(·, 1)` (bn weight) -/
  | one
  /-- `xavier_uniform_` (other weight) -/
  | xavier
  /-- `constant_(·, 0)` (bias) -/
  | zero
  /-- only `torch.DoubleTensor(size).zero_()` (neither weight nor bias) -/
  | zeros
  deriving Repr, DecidableEq

/-- An entry of the resolved state dict: target shape plus provenance. -/
structure InitEntry where
  shape : List Nat
  kind : InitKind
  deriving Repr, DecidableEq

/-- The default-init policy of main.py lines 88-99 for one uninitialized
key: a zeroed tensor of the target shape, then `1` if the name contains
both "weight" and "bn", Xavier if it contains "weight" but not "bn",
`0` if it contains "bias" (and not "weight"). -/
def defaultFill (k : String) (sh : List Nat) : InitEntry :=
  if strContains k "weight" then
    if strContains k "bn" then ⟨sh, .one⟩ else ⟨sh, .xavier⟩
  else if strContains k "bias" then ⟨sh, .zero⟩
  else ⟨sh, .zeros⟩

/-- main.py lines 84-99: compute `un_init_dict_keys` (model keys absent
from `new_state_dict`) and extend `new_state_dict` with the default-init
policy for each of them. -/
def gapFill (modelDict : List (String × List Nat)) (resolved : List (String × InitEntry)) :
    List (String × InitEntry) :=
  resolved ++
    ((modelDict.filter (fun kv => (alookup kv.1 resolved).isNone)).map
      (fun kv => (kv.1, defaultFill kv.1 kv.2)))

/-- The shape-filtered transplant of `init_C3DRes18` / the 3D and finetune
paths of `init_ECO` (main.py lines 216-218, 228, 252): keep a pretrained
entry iff its key is in `model_dict` and its size equals the target's. -/
def resolveShapeFiltered (modelDict : List (String × List Nat))
    (pretrained : List (String × List Nat)) : List (String × InitEntry) :=
  (pretrained.filter (fun kv => alookup kv.1 modelDict = some kv.2)).map
    (fun kv => (kv.1, (⟨kv.2, .pretrained⟩ : InitEntry)))

/-! ## Channel-split-and-concat repair (`init_ECO`, lines 220-221 and 241-242)

`module.base_model.res3a_2.weight` is a 5-D conv weight; the repair acts
along dimension 1 (input channels) only, so the tensor is embedded as a
list of rows (dimension 0) of lists (dimension 1) of abstract slices `α`
(the remaining dimensions). -/

/-- `torch.chunk(t, n, 1)`: split along dimension 1 into `n` chunks of
size `ceil(len / n)` (the last possibly shorter; empty chunks are not
produced). -/
def torchChunkDim1 {α : Type _} (n : Nat) (w : List (List α)) : List (List (List α)) :=
  let len := (w.headD []).length
  let sz := (len + n - 1) / n
  ((List.range n).filter (fun i => i * sz < len)).map
    (fun i => w.map (fun row => (row.drop (i * sz)).take sz))

/-- `torch.cat((a, b), 1)` for two tensors of equal dimension 0. -/
def catDim1Pair {α : Type _} (a b : List (List α)) : List (List α) :=
  List.zipWith (fun r s => r ++ s) a b

/-- `torch.cat((c0, c1, c2), 1)` (main.py line 221 / 242). -/
def catDim1₃ {α : Type _} (c0 c1 c2 : List (List α)) : List (List α) :=
  catDim1Pair (catDim1Pair c0 c1) c2

/-- main.py lines 220-221: chunk the source weight into 4 along the
input-channel axis and concatenate the first 3 chunks. -/
def res3a2Repair {α : Type _} (w : List (List α)) : List (List α) :=
  let ch := torchChunkDim1 4 w
  catDim1₃ (ch.getD 0 []) (ch.getD 1 []) (ch.getD 2 [])

/-! ## The `main` configuration pipeline (lines 23-197)

The pipeline is embedded as a step-by-step evaluation of `main` that
records which milestones were reached (`RunLog`) and the Python exception
terminating it, if any.  External effects (model construction, checkpoint
loading, the loops themselves) are recorded as milestones. -/

/-- A Python exception raised by `main`. -/
inductive MainErr
  /-- `raise ValueError(msg)` -/
  | valueError (msg : String)
  /-- `NameError`: the local variable `name` was referenced unassigned -/
  | nameError (name : String)
  deriving Repr, DecidableEq

/-- Milestones of one `main` run. -/
structure RunLog where
  /-- the `TSN(...)` model object was constructed (line 54) -/
  modelConstructed : Bool
  /-- `=> no checkpoint found` was printed (line 115) -/
  resumeWarning : Bool
  /-- a resume checkpoint was actually loaded (lines 107-113) -/
  resumedFromCheckpoint : Bool
  /-- train/val `DataLoader`s were built (lines 130-158) -/
  loadersBuilt : Bool
  /-- the epoch loop was entered (line 179) -/
  trainingStarted : Bool
  deriving Repr, DecidableEq

/-- The all-false initial log. -/
def RunLog.init : RunLog := ⟨false, false, false, false, false⟩

/-- The command-line configuration fields `main` consults. -/
structure Config where
  dataset : String
  arch : String
  pretrained_parts : String
  modality : String
  loss_type : String
  /-- `args.resume` (empty string when not given) -/
  resume : String
  /-- whether `os.path.isfile(args.resume)` holds -/
  resumeExists : Bool
  /-- `args.evaluate` -/
  evaluate : Bool
  deriving Repr, DecidableEq

/-- main.py lines 40-52: the dataset table, giving `num_class` and, for the
datasets that set it, the `rgb_read_format` frame-filename format (`hmdb51`
leaves `rgb_read_format` unassigned). -/
def datasetInfo (d : String) : Option (Nat × Option String) :=
  if d = "ucf101" then some (101, some "\x7b:05d\x7d.jpg")
  else if d = "hmdb51" then some (51, none)
  else if d = "kinetics" then some (400, some "\x7b:05d\x7d.jpg")
  else if d = "something" then some (174, some "\x7b:04d\x7d.jpg")
  else none

/-- main.py lines 79-82 plus `init_ECO` / `init_C3DRes18` (199-256), as far
as control flow: which `(arch, pretrained_parts)` pairs produce a state
dict, and which exception the others raise.  An unknown arch leaves
`new_state_dict` unassigned, a `NameError` at line 84; an unknown
`pretrained_parts` under ECO leaves it unassigned inside `init_ECO`, a
`NameError` at its `return`; `init_C3DRes18` raises a `ValueError`. -/
def initStateDict (arch pretrained_parts : String) : Except MainErr Unit :=
  if arch = "ECO" then
    if pretrained_parts = "scratch" ∨ pretrained_parts = "2D" ∨ pretrained_parts = "3D" ∨
        pretrained_parts = "finetune" ∨ pretrained_parts = "both" then .ok ()
    else .error (.nameError "new_state_dict")
  else if arch = "C3DRes18" then
    if pretrained_parts = "scratch" ∨ pretrained_parts = "3D" then .ok ()
    else .error (.valueError
      "For C3DRes18, \"--pretrained_parts\" can only be chosen from [scratch, 3D]")
  else .error (.nameError "new_state_dict")

/-- main.py lines 125-128: `data_length` by modality; any other modality
leaves it unassigned, a `NameError` when the loaders reference it. -/
def dataLength (modality : String) : Option Nat :=
  if modality = "RGB" then some 1
  else if modality = "Flow" ∨ modality = "RGBDiff" then some 5
  else none

/-- The `main` pipeline in source order: dataset table (40-52), model
construction (54), state-dict resolution (79-103), resume handling
(105-115), data-loader construction (120-158, which references
`data_length` and `rgb_read_format`), loss-type check (161-164), then
either evaluate-only or the epoch loop (175-197).  Returns the milestones
reached and the exception that terminated the run, if any. -/
def runMain (cfg : Config) : RunLog × Option MainErr :=
  match datasetInfo cfg.dataset with
  | none => (RunLog.init, some (.valueError ("Unknown dataset " ++ cfg.dataset)))
  | some (_, fmt) =>
    let log := { RunLog.init with modelConstructed := true }
    match initStateDict cfg.arch cfg.pretrained_parts with
    | .error e => (log, some e)
    | .ok _ =>
      let log :=
        if cfg.resume ≠ "" then
          if cfg.resumeExists then { log with resumedFromCheckpoint := true }
          else { log with resumeWarning := true }
        else log
      match dataLength cfg.modality with
      | none => (log, some (.nameError "data_length"))
      | some _ =>
        match fmt with
        | none => (log, some (.nameError "rgb_read_format"))
        | some _ =>
          let log := { log with loadersBuilt := true }
          if cfg.loss_type = "nll" then
            if cfg.evaluate then (log, none)
            else ({ log with trainingStarted := true }, none)
          else (log, some (.valueError "Unknown loss type"))

/-- Invariant maintained by the top-1 `AverageMeter` in `validate`: the
accumulated values stay within the accuracy range and the `avg` field is
consistent with `sum` and `count`. -/
def MeterInv (m : AverageMeter) : Prop :=
  0 ≤ m.count ∧ 0 ≤ m.sum ∧ m.sum ≤ 100 * m.count ∧
    (m.count = 0 → m.avg = 0) ∧ (0 < m.count → m.avg = m.sum / m.count)

/-! ## Theorems -/

theorem alookup_append_some {β : Type _} {k : String} {v : β}
    (l1 l2 : List (String × β)) (h : alookup k l1 = some v) :
    alookup k (l1 ++ l2) = some v := by
  induction l1 with
  | nil => simp [alookup] at h
  | cons hd tl ih =>
    rw [List.cons_append]
    unfold alookup at h ⊢
    split_ifs at h ⊢ with hk
    · exact h
    · exact ih h

theorem alookup_append_none {β : Type _} {k : String}
    (l1 l2 : List (String × β)) (h : alookup k l1 = none) :
    alookup k (l1 ++ l2) = alookup k l2 := by
  induction l1 with
  | nil => simp
  | cons hd tl ih =>
    obtain ⟨k2, v2⟩ := hd
    rw [List.cons_append]
    simp only [alookup] at h ⊢
    split_ifs at h ⊢ with hk
    · exact ih h

theorem alookup_gapfill_fills {modelDict : List (String × List Nat)}
    {resolved : List (String × InitEntry)} {k : String} {sh : List Nat}
    (hnone : alookup k resolved = none) (hmem : alookup k modelDict = some sh) :
    alookup k ((modelDict.filter (fun kv => (alookup kv.1 resolved).isNone)).map
      (fun kv => (kv.1, defaultFill kv.1 kv.2))) = some (defaultFill k sh) := by
  induction modelDict with
  | nil => simp [alookup] at hmem
  | cons hd tl ih =>
    unfold alookup at hmem
    by_cases hk : k = hd.1
    · rw [if_pos hk] at hmem
      injection hmem with hmem
      subst hmem
      subst hk
      rw [List.filter_cons, if_pos (by simp [hnone])]
      simp [alookup]
    · rw [if_neg hk] at hmem
      rw [List.filter_cons]
      split_ifs with hkeep
      · rw [List.map_cons]
        unfold alookup
        rw [if_neg hk]
        exact ih hmem
      · exact ih hmem

/-- Claim C1 (code_bug evidence): with `iter_size = 2`, learning rate 1 and
two processed batches of gradient 1 each, the training loop of `train`
(main.py 301-326) moves the parameter from 0 to -3/2: line 326 takes an
unconditional `optimizer.step()` on every batch (on top of the step inside
the `i % iter_size == 0` branch, which already fires at `i = 0` after a
single batch), so the result differs from the claimed single step on the
accumulated gradient pre-divided by `iter_size`, which would give -1. -/
theorem train_iter_size_double_step_bug :
    (trainEpoch 2 1 [1, 1] ⟨0, 0⟩).p = -(3 / 2) ∧
    claimedAccumUpdate 2 1 [1, 1] 0 = -1 ∧
    (trainEpoch 2 1 [1, 1] ⟨0, 0⟩).p ≠ claimedAccumUpdate 2 1 [1, 1] 0 := by
  have h1 : (trainEpoch 2 1 [1, 1] ⟨0, 0⟩).p = -(3 / 2) := by
    norm_num [trainEpoch, trainBatch, sgdStep, zeroGrad, List.enum, List.enumFrom]
  have h2 : claimedAccumUpdate 2 1 [1, 1] 0 = -1 := by
    norm_num [claimedAccumUpdate]
  refine ⟨h1, h2, ?_⟩
  rw [h1, h2]
  norm_num

/-- Claim C3: `adjust_learning_rate` sets every group's learning rate to
`base_lr * 0.1 ^ (number of decay thresholds ≤ epoch) * lr_mult` and its
weight decay to `base_decay * decay_mult`; for thresholds `[30, 60, 90]`
and base lr `0.1` the decayed base lr is `0.1` at epoch 29, `0.01` at
epoch 30 and `0.0001` at epoch 90. -/
theorem adjust_learning_rate_spec :
    (∀ (baseLr baseDecay : ℚ) (epoch : Nat) (lr_steps : List Nat)
        (groups : List ParamGroup),
      adjust_learning_rate baseLr baseDecay epoch lr_steps groups =
        groups.map (fun g =>
          { g with
            lr := baseLr * (1 / 10) ^ (lr_steps.countP (fun s => s ≤ epoch)) * g.lr_mult,
            weight_decay := baseDecay * g.decay_mult })) ∧
    decayedLr (1 / 10) 29 [30, 60, 90] = 1 / 10 ∧
    decayedLr (1 / 10) 30 [30, 60, 90] = 1 / 100 ∧
    decayedLr (1 / 10) 90 [30, 60, 90] = 1 / 10000 := by
  refine ⟨?_, by norm_num [decayedLr, decayFactor], by norm_num [decayedLr, decayFactor],
    by norm_num [decayedLr, decayFactor]⟩
  intro baseLr baseDecay epoch lr_steps groups
  unfold adjust_learning_rate decayedLr decayFactor
  simp only [ge_iff_le, mul_assoc]

/-- Claim C7 counterexample: with run prefix `"eco"`, modality `"RGB"` and
epoch 1, `save_checkpoint` writes `eco_rgb_epoch_1_checkpoint.pth.tar`, not
the claimed pattern `<run_prefix>_<modality>_epoch_<epoch>_checkpoint.tar`
(which would be `eco_RGB_epoch_1_checkpoint.tar`): the modality is
lowercased and the extension is `.pth.tar`; the best-model filename is
likewise `eco_rgb_model_best.pth.tar`, not `eco_RGB_model_best.tar`. -/
theorem save_checkpoint_name_counterexample :
    checkpointName "eco" "RGB" 1 = "eco_rgb_epoch_1_checkpoint.pth.tar" ∧
    "eco_rgb_epoch_1_checkpoint.pth.tar" ≠ "eco_RGB_epoch_1_checkpoint.tar" ∧
    bestModelName "eco" "RGB" = "eco_rgb_model_best.pth.tar" ∧
    "eco_rgb_model_best.pth.tar" ≠ "eco_RGB_model_best.tar" := by
  refine ⟨by decide, by decide, by decide, by decide⟩

theorem checkpointName_ne_bestModelName (pref m : String) (e : Nat) :
    checkpointName pref m e ≠ bestModelName pref m := by
  intro h
  have hd := congrArg String.data h
  simp [checkpointName, bestModelName, joinUnd, String.data_append] at hd

/-- Claim C7 (amended): `save_checkpoint` writes the checkpoint to a file
named `<run_prefix>_<lowercased modality>_epoch_<epoch>_checkpoint.pth.tar`
and, when `is_best` is true, additionally copies it onto the fixed
best-model filename `<run_prefix>_<lowercased modality>_model_best.pth.tar`,
overwriting any prior content of that file; when `is_best` is false the
best-model file is untouched. -/
theorem save_checkpoint_spec (pref modality : String) (epoch : Nat) (state : String)
    (is_best : Bool) (fs : FileSys) :
    checkpointName pref modality epoch =
      pref ++ "_" ++ (pyLower modality ++ "_" ++ ("epoch" ++ "_" ++
        (toString epoch ++ "_" ++ "checkpoint.pth.tar"))) ∧
    bestModelName pref modality =
      pref ++ "_" ++ (pyLower modality ++ "_" ++ "model_best.pth.tar") ∧
    save_checkpoint pref modality epoch state is_best fs
      (checkpointName pref modality epoch) = some state ∧
    save_checkpoint pref modality epoch state is_best fs
      (bestModelName pref modality) =
      (if is_best then some state else fs (bestModelName pref modality)) := by
  refine ⟨rfl, rfl, ?_, ?_⟩
  · unfold save_checkpoint
    cases is_best with
    | false => simp [fsWrite]
    | true =>
      simp only [if_true]
      unfold fsWrite
      rw [if_neg (checkpointName_ne_bestModelName pref modality epoch), if_pos rfl]
  · unfold save_checkpoint
    cases is_best with
    | false =>
      simp only [Bool.false_eq_true, if_false]
      unfold fsWrite
      rw [if_neg (Ne.symm (checkpointName_ne_bestModelName pref modality epoch))]
    | true => simp [fsWrite]

/-- Claim C8: after an evaluated epoch, `main` (lines 186-197) overwrites
the best-model file exactly when the new top-1 accuracy strictly exceeds
the recorded best (and updates `best_prec1` to the maximum); otherwise the
best-model file keeps its previous content. -/
theorem best_model_promotion (pref m : String) (epoch : Nat) (stateRepr : String)
    (prec1 : ℚ) (s : PromoteState) :
    (promoteEpoch pref m epoch stateRepr prec1 s).best_prec1 = max prec1 s.best_prec1 ∧
    (promoteEpoch pref m epoch stateRepr prec1 s).fs (bestModelName pref m) =
      (if s.best_prec1 < prec1 then some stateRepr
       else s.fs (bestModelName pref m)) := by
  refine ⟨rfl, ?_⟩
  unfold promoteEpoch save_checkpoint
  by_cases hb : s.best_prec1 < prec1
  · simp [hb, fsWrite]
  · simp [hb, fsWrite, Ne.symm (checkpointName_ne_bestModelName pref m (epoch + 1))]

theorem foldl_count_of_ne (msk : Nat) :
    ∀ (l : List Nat) (s0 : Nat), (∀ i ∈ l, i ≠ msk) →
      l.foldl (fun s i => if i = msk then s else s + 1) s0 = s0 + l.length := by
  intro l
  induction l with
  | nil => simp
  | cons a t ih =>
    intro s0 h
    have ha : a ≠ msk := h a (by simp)
    simp only [List.foldl_cons, if_neg ha]
    rw [ih (s0 + 1) (fun i hi => h i (by simp [hi]))]
    simp only [List.length_cons]
    omega

theorem processedBatches_eq : ∀ len : Nat, processedBatches len = len - 1
  | 0 => rfl
  | (n + 1) => by
    unfold processedBatches epochLoop
    simp only [Nat.add_sub_cancel]
    rw [List.range_succ, List.foldl_append,
      foldl_count_of_ne n (List.range n) 0 (fun i hi => Nat.ne_of_lt (List.mem_range.mp hi))]
    simp

theorem meterInv_update {m : AverageMeter} (hm : MeterInv m) {v n : ℚ}
    (hv0 : 0 ≤ v) (hv1 : v ≤ 100) (hn : 1 ≤ n) : MeterInv (m.update v n) := by
  obtain ⟨hc, hs, hb, -, -⟩ := hm
  have hn0 : 0 < n := lt_of_lt_of_le one_pos hn
  have hvn : v * n ≤ 100 * n := mul_le_mul_of_nonneg_right hv1 hn0.le
  unfold AverageMeter.update MeterInv

  refine ⟨by linarith, by nlinarith, by nlinarith, ?_, fun _ => rfl⟩
  intro h
  linarith

theorem meterInv_foldl :
    ∀ (batches : List (ℚ × ℚ)),
      (∀ b ∈ batches, 0 ≤ b.1 ∧ b.1 ≤ 100 ∧ 1 ≤ b.2) →
      ∀ m, MeterInv m → MeterInv (batches.foldl (fun m b => m.update b.1 b.2) m) := by
  intro batches
  induction batches with
  | nil => intro _ m hm; exact hm
  | cons a t ih =>
    intro h m hm
    simp only [List.foldl_cons]
    have ha := h a (by simp)
    exact ih (fun b hbm => h b (by simp [hbm])) _ (meterInv_update hm ha.1 ha.2.1 ha.2.2)

theorem meterInv_avg_bounds {m : AverageMeter} (hm : MeterInv m) :
    0 ≤ m.avg ∧ m.avg ≤ 100 := by
  obtain ⟨hc, hs, hb, h0, hpos⟩ := hm
  rcases eq_or_lt_of_le hc with h | h
  · rw [h0 h.symm]
    norm_num
  · rw [hpos h]
    constructor
    · exact div_nonneg hs h.le
    · rw [div_le_iff₀ h]
      linarith

theorem meterInv_reset : MeterInv AverageMeter.reset := by
  unfold MeterInv AverageMeter.reset
  norm_num

theorem indicator_sum_bounds :
    ∀ (preds targets : List Nat),
      0 ≤ (List.zipWith (fun p t => if p = t then (1 : ℚ) else 0) preds targets).sum ∧
      (List.zipWith (fun p t => if p = t then (1 : ℚ) else 0) preds targets).sum ≤
        (targets.length : ℚ) := by
  intro preds
  induction preds with
  | nil =>
    intro targets
    simp
  | cons p ps ih =>
    intro targets
    cases targets with
    | nil => simp
    | cons t ts =>
      obtain ⟨ih0, ih1⟩ := ih ts
      simp only [List.zipWith_cons_cons, List.sum_cons, List.length_cons]
      push_cast
      split_ifs <;> constructor <;> linarith

theorem accuracyTop1_bounds (preds targets : List Nat) :
    0 ≤ accuracyTop1 preds targets ∧ accuracyTop1 preds targets ≤ 100 := by
  obtain ⟨h0, h1⟩ := indicator_sum_bounds preds targets
  unfold accuracyTop1
  rcases Nat.eq_zero_or_pos targets.length with hL | hL
  · obtain rfl := List.length_eq_zero.mp hL
    simp
  · have hLQ : (0 : ℚ) < (targets.length : ℚ) := by exact_mod_cast hL
    constructor
    · exact mul_nonneg h0 (by positivity)
    · have hmul := mul_le_mul_of_nonneg_right h1
        (le_of_lt (div_pos (by norm_num : (0:ℚ) < 100) hLQ))
      have heq : (targets.length : ℚ) * (100 / (targets.length : ℚ)) = 100 := by
        field_simp
      linarith

/-- Claim C5: the training and evaluation loops discard the final batch of
every epoch, processing exactly `len(loader) - 1` batches; a dataset of 9
samples at batch size 4 gives a loader of length 3 and hence exactly 2
processed full batches; each batch's top-1 accuracy lies in `[0, 100]`, and
the evaluation loop's returned mean top-1 accuracy lies in `[0, 100]`. -/
theorem batch_discard_and_validate_spec :
    (∀ len : Nat, processedBatches len = len - 1) ∧
    (loaderLen 9 4 = 3 ∧ processedBatches (loaderLen 9 4) = 2) ∧
    (∀ preds targets : List Nat,
      0 ≤ accuracyTop1 preds targets ∧ accuracyTop1 preds targets ≤ 100) ∧
    (∀ batches : List (ℚ × ℚ),
      (∀ b ∈ batches, 0 ≤ b.1 ∧ b.1 ≤ 100 ∧ 1 ≤ b.2) →
      0 ≤ validateTop1 batches ∧ validateTop1 batches ≤ 100) := by
  refine ⟨processedBatches_eq, ⟨by decide, by decide⟩, accuracyTop1_bounds, ?_⟩
  intro batches hb
  exact meterInv_avg_bounds (meterInv_foldl batches hb _ meterInv_reset)

/-- Witness for C5 at a concrete evaluation run: two processed batches of
size 4 with top-1 accuracies 50 and 100 satisfy the hypotheses, and the
returned mean lies in `[0, 100]`. -/
theorem batch_discard_and_validate_witness :
    (∀ b ∈ [((50 : ℚ), (4 : ℚ)), (100, 4)], 0 ≤ b.1 ∧ b.1 ≤ 100 ∧ 1 ≤ b.2) ∧
    (0 ≤ validateTop1 [(50, 4), (100, 4)] ∧ validateTop1 [(50, 4), (100, 4)] ≤ 100) := by
  refine ⟨by norm_num, batch_discard_and_validate_spec.2.2.2 _ (by norm_num)⟩

theorem sum_map_mul_sq (c : ℚ) :
    ∀ l : List ℚ,
      ((l.map (fun g => g * c)).map (fun g => g ^ 2)).sum =
        ((l.map (fun g => g ^ 2)).sum) * c ^ 2 := by
  intro l
  induction l with
  | nil => simp
  | cons a t ih =>
    simp only [List.map_cons, List.sum_cons, ih]
    ring

/-- Claim C6: with a configured max-norm, gradient clipping computes the
global L2 norm of all gradients (`norm`, constrained here by
`norm ^ 2 = Σ gᵢ ^ 2`); when it exceeds the max every gradient is scaled
by `max / norm` (so the clipped global norm equals the max), and the
pre-clip norm together with the scaling coefficient is reported; when it
does not exceed the max the gradients are unchanged and nothing is
reported. -/
theorem clip_gradient_spec (maxNorm norm : ℚ) (grads : List ℚ)
    (hmax : 0 < maxNorm) (hnn : 0 ≤ norm)
    (hnorm : norm ^ 2 = (grads.map (fun g => g ^ 2)).sum) :
    (norm > maxNorm →
      clip_grad_norm maxNorm norm grads = grads.map (fun g => g * (maxNorm / norm)) ∧
      ((clip_grad_norm maxNorm norm grads).map (fun g => g ^ 2)).sum = maxNorm ^ 2 ∧
      clipReport maxNorm norm = some (norm, maxNorm / norm)) ∧
    (¬ norm > maxNorm →
      clip_grad_norm maxNorm norm grads = grads ∧
      clipReport maxNorm norm = none) := by
  constructor
  · intro hgt
    have hn0 : norm ≠ 0 := ne_of_gt (lt_trans hmax hgt)
    refine ⟨by simp [clip_grad_norm, hgt], ?_, by simp [clipReport, hgt]⟩
    rw [clip_grad_norm, if_pos hgt, sum_map_mul_sq, ← hnorm]
    field_simp
  · intro hle
    exact ⟨by simp [clip_grad_norm, hle], by simp [clipReport, hle]⟩

/-- Witness for C6: gradients `[3, 4]` have global norm 5; with max-norm 1
they are scaled to `[3/5, 4/5]` and the report carries the pre-clip norm 5
and coefficient `1/5`. -/
theorem clip_gradient_witness :
    (0 : ℚ) < 1 ∧ ((5 : ℚ) ^ 2 = (([3, 4] : List ℚ).map (fun g => g ^ 2)).sum) ∧
    clip_grad_norm 1 5 [3, 4] = [3 / 5, 4 / 5] ∧
    clipReport 1 5 = some (5, 1 / 5) := by
  have h := (clip_gradient_spec 1 5 [3, 4] (by norm_num) (by norm_num) (by norm_num)).1
    (by norm_num)
  refine ⟨by norm_num, by norm_num, ?_, ?_⟩
  · rw [h.1]
    norm_num
  · rw [h.2.2]

theorem zipWith_map_same {α β : Type _} (f : β → β → β) (g h : α → β) (l : List α) :
    List.zipWith f (l.map g) (l.map h) = l.map (fun a => f (g a) (h a)) := by
  induction l with
  | nil => rfl
  | cons a t ih => simp [ih]

theorem take_three_chunks {α : Type _} (c : Nat) (row : List α) :
    (row.take c ++ (row.drop c).take c) ++ (row.drop (2 * c)).take c
      = row.take (3 * c) := by
  rw [List.append_assoc]
  rw [show 3 * c = c + (c + c) by ring, List.take_add, List.take_add, List.drop_drop]
  rw [show c + c = 2 * c by ring]

/-- Claim C4: in the 3D channel-repair path of `init_ECO` (main.py 220-221,
241-242), for a source conv weight of input-channel width `4 * c`
(dimension 1), the repaired weight is exactly the concatenation of the
first three `c`-sized chunks along that axis — rowwise, the first `3 * c`
input channels — so its input-channel width is `3 * c`. -/
theorem res3a2_repair_spec (α : Type _) (w : List (List α)) (c : Nat)
    (hc : 0 < c) (hw : w ≠ [])
    (hlen : ∀ row ∈ w, row.length = 4 * c) :
    res3a2Repair w = w.map (fun row => row.take (3 * c)) ∧
    ∀ row ∈ res3a2Repair w, row.length = 3 * c := by
  have hhead : (w.headD []).length = 4 * c := by
    cases w with
    | nil => exact absurd rfl hw
    | cons a t => exact hlen a (by simp)
  have hsz : (4 * c + 4 - 1) / 4 = c := by omega
  have hchunks : torchChunkDim1 4 w =
      [w.map (fun row => row.take c),
       w.map (fun row => (row.drop c).take c),
       w.map (fun row => (row.drop (2 * c)).take c),
       w.map (fun row => (row.drop (3 * c)).take c)] := by
    unfold torchChunkDim1
    simp only [hhead, hsz]
    norm_num [List.range_succ, List.filter_cons, List.filter_nil, hc,
      show c < 4 * c from by omega]
  have hmain : res3a2Repair w = w.map (fun row => row.take (3 * c)) := by
    unfold res3a2Repair catDim1₃ catDim1Pair
    rw [hchunks]
    simp only [List.getD_cons_zero, List.getD_cons_succ]
    rw [zipWith_map_same, zipWith_map_same]
    refine List.map_congr_left ?_
    intro row _
    exact take_three_chunks c row
  refine ⟨hmain, ?_⟩
  rw [hmain]
  intro row hrow
  obtain ⟨r, hr, rfl⟩ := List.mem_map.mp hrow
  rw [List.length_take, hlen r hr]
  omega

/-- Witness for C4: a 2-output-channel weight with 4 input channels
(`c = 1`) is repaired to its first 3 input channels. -/
theorem res3a2_repair_witness :
    ((0 : Nat) < 1 ∧ ([[(1 : ℚ), 2, 3, 4], [5, 6, 7, 8]] : List (List ℚ)) ≠ [] ∧
      (∀ row ∈ ([[(1 : ℚ), 2, 3, 4], [5, 6, 7, 8]] : List (List ℚ)), row.length = 4 * 1)) ∧
    res3a2Repair ([[(1 : ℚ), 2, 3, 4], [5, 6, 7, 8]] : List (List ℚ)) =
      [[1, 2, 3], [5, 6, 7]] := by
  have h := res3a2_repair_spec ℚ [[1, 2, 3, 4], [5, 6, 7, 8]] 1 (by norm_num)
    (by simp) (by norm_num)
  refine ⟨⟨by norm_num, by simp, by norm_num⟩, ?_⟩
  rw [h.1]
  norm_num

/-- Claim C2: after resolution and gap fill (main.py 84-103), every
parameter name of the target model's state dict is present in the resolved
initial state with the target's shape: a name found by the resolver keeps
the target's shape (hypothesis `hres`, which holds by construction for the
shape-filtered 3D/finetune paths and the empty scratch path, and is the
documented hard shape assumption for the 2D path and the channel-repair
entry), and any other name is gap-filled by the default-init policy —
constant 1 for a normalization-layer ("bn") weight, Xavier for any other
weight, constant 0 for a bias — so no target parameter is left undefined. -/
theorem gap_fill_total (modelDict : List (String × List Nat))
    (resolved : List (String × InitEntry))
    (hres : ∀ k e sh, alookup k resolved = some e → alookup k modelDict = some sh →
      e.shape = sh) :
    ∀ k sh, alookup k modelDict = some sh →
      ∃ e, alookup k (gapFill modelDict resolved) = some e ∧ e.shape = sh ∧
        (alookup k resolved = none → e = defaultFill k sh) ∧
        (strContains k "weight" = true → strContains k "bn" = true →
          defaultFill k sh = ⟨sh, .one⟩) ∧
        (strContains k "weight" = true → strContains k "bn" = false →
          defaultFill k sh = ⟨sh, .xavier⟩) ∧
        (strContains k "weight" = false → strContains k "bias" = true →
          defaultFill k sh = ⟨sh, .zero⟩) := by
  intro k sh hk
  have hpol1 : strContains k "weight" = true → strContains k "bn" = true →
      defaultFill k sh = ⟨sh, .one⟩ := by
    intro hw hbn
    simp [defaultFill, hw, hbn]
  have hpol2 : strContains k "weight" = true → strContains k "bn" = false →
      defaultFill k sh = ⟨sh, .xavier⟩ := by
    intro hw hbn
    simp [defaultFill, hw, hbn]
  have hpol3 : strContains k "weight" = false → strContains k "bias" = true →
      defaultFill k sh = ⟨sh, .zero⟩ := by
    intro hw hb
    simp [defaultFill, hw, hb]
  cases hres0 : alookup k resolved with
  | some e =>
    exact ⟨e, alookup_append_some _ _ hres0, hres k e sh hres0 hk,
      fun hnone => absurd hnone (by simp), hpol1, hpol2, hpol3⟩
  | none =>
    refine ⟨defaultFill k sh, ?_, ?_, fun _ => rfl, hpol1, hpol2, hpol3⟩
    · unfold gapFill
      rw [alookup_append_none _ _ hres0]
      exact alookup_gapfill_fills hres0 hk
    · unfold defaultFill
      split_ifs <;> rfl

/-- Witness for C2 in the scratch mode (empty resolver output): the bn
weight of a three-parameter model dict is gap-filled with constant 1 and
the target's shape. -/
theorem gap_fill_total_witness :
    alookup "bn1.weight"
      (gapFill [("conv1.weight", [64, 3]), ("bn1.weight", [64]), ("fc.bias", [10])] []) =
      some ⟨[64], InitKind.one⟩ := by
  obtain ⟨e, he, hsh, hgap, hone, -, -⟩ :=
    gap_fill_total [("conv1.weight", [64, 3]), ("bn1.weight", [64]), ("fc.bias", [10])] []
      (by intro k e sh h1 _; simp [alookup] at h1) "bn1.weight" [64] (by decide)
  rw [he, hgap rfl, hone (by decide) (by decide)]

/-- Claim C9: configuration errors fail fast — an unknown dataset raises a
`ValueError` in `main` before the model is constructed; an unknown loss
type raises a `ValueError` before the training loop starts; requesting any
pretrained source other than scratch/3D for `C3DRes18` raises a
`ValueError`; whereas a missing resume checkpoint file is only reported
(`resumeWarning`) and the run proceeds into training from scratch. -/
theorem config_error_fail_fast :
    (∀ cfg : Config, datasetInfo cfg.dataset = none →
      runMain cfg = (RunLog.init, some (.valueError ("Unknown dataset " ++ cfg.dataset))) ∧
      (runMain cfg).1.modelConstructed = false) ∧
    (∀ cfg : Config, ∀ n f, datasetInfo cfg.dataset = some (n, some f) →
      initStateDict cfg.arch cfg.pretrained_parts = .ok () →
      (dataLength cfg.modality).isSome = true →
      cfg.loss_type ≠ "nll" →
      (runMain cfg).2 = some (.valueError "Unknown loss type") ∧
      (runMain cfg).1.trainingStarted = false) ∧
    (∀ cfg : Config, ∀ info, datasetInfo cfg.dataset = some info →
      cfg.arch = "C3DRes18" →
      cfg.pretrained_parts ≠ "scratch" → cfg.pretrained_parts ≠ "3D" →
      (runMain cfg).2 = some (.valueError
        "For C3DRes18, \"--pretrained_parts\" can only be chosen from [scratch, 3D]") ∧
      (runMain cfg).1.loadersBuilt = false ∧
      (runMain cfg).1.trainingStarted = false) ∧
    (∀ cfg : Config, ∀ n f, datasetInfo cfg.dataset = some (n, some f) →
      initStateDict cfg.arch cfg.pretrained_parts = .ok () →
      (dataLength cfg.modality).isSome = true →
      cfg.loss_type = "nll" →
      cfg.resume ≠ "" → cfg.resumeExists = false → cfg.evaluate = false →
      (runMain cfg).2 = none ∧
      (runMain cfg).1.resumeWarning = true ∧
      (runMain cfg).1.resumedFromCheckpoint = false ∧
      (runMain cfg).1.trainingStarted = true) := by
  refine ⟨?_, ?_, ?_, ?_⟩
  · intro cfg h
    unfold runMain
    rw [h]
    exact ⟨rfl, rfl⟩
  · intro cfg n f hds hinit hdl hloss
    obtain ⟨d, hd⟩ := Option.isSome_iff_exists.mp hdl
    unfold runMain
    rw [hds, hinit, hd]
    simp [hloss]
    split_ifs <;> rfl
  · intro cfg info hds harch hp1 hp2
    have hinit : initStateDict cfg.arch cfg.pretrained_parts = .error (.valueError
        "For C3DRes18, \"--pretrained_parts\" can only be chosen from [scratch, 3D]") := by
      unfold initStateDict
      rw [harch]
      have harch2 : ("C3DRes18" : String) ≠ "ECO" := by decide
      rw [if_neg harch2, if_pos rfl, if_neg (by simp [hp1, hp2])]
    obtain ⟨n, f⟩ := info
    unfold runMain
    rw [hds, hinit]
    exact ⟨rfl, rfl, rfl⟩
  · intro cfg n f hds hinit hdl hloss hres hrese heval
    obtain ⟨d, hd⟩ := Option.isSome_iff_exists.mp hdl
    unfold runMain
    rw [hds, hinit, hd]
    simp [hloss, hres, hrese, heval, RunLog.init]

/-- Witness for C9: four concrete configurations exercising the four
branches — unknown dataset `"imagenet"`, unknown loss `"mse"`, `C3DRes18`
with pretrained source `"2D"`, and a missing resume checkpoint. -/
theorem config_error_fail_fast_witness :
    (runMain ⟨"imagenet", "ECO", "scratch", "RGB", "nll", "", false, false⟩ =
      (RunLog.init, some (.valueError "Unknown dataset imagenet"))) ∧
    ((runMain ⟨"ucf101", "ECO", "scratch", "RGB", "mse", "", false, false⟩).2 =
      some (.valueError "Unknown loss type") ∧
     (runMain ⟨"ucf101", "ECO", "scratch", "RGB", "mse", "", false, false⟩).1.trainingStarted
       = false) ∧
    ((runMain ⟨"ucf101", "C3DRes18", "2D", "RGB", "nll", "", false, false⟩).2 =
      some (.valueError
        "For C3DRes18, \"--pretrained_parts\" can only be chosen from [scratch, 3D]")) ∧
    ((runMain ⟨"ucf101", "ECO", "scratch", "RGB", "nll", "ck.pth.tar", false, false⟩).2
       = none ∧
     (runMain ⟨"ucf101", "ECO", "scratch", "RGB", "nll", "ck.pth.tar", false, false⟩).1.resumeWarning
       = true ∧
     (runMain ⟨"ucf101", "ECO", "scratch", "RGB", "nll", "ck.pth.tar", false, false⟩).1.trainingStarted
       = true) := by
  have h1 := (config_error_fail_fast.1 ⟨"imagenet", "ECO", "scratch", "RGB", "nll", "", false, false⟩
    (by decide)).1
  have h2 := config_error_fail_fast.2.1 ⟨"ucf101", "ECO", "scratch", "RGB", "mse", "", false, false⟩
    101 "\x7b:05d\x7d.jpg" (by decide) rfl (by decide) (by decide)
  have h3 := config_error_fail_fast.2.2.1
    ⟨"ucf101", "C3DRes18", "2D", "RGB", "nll", "", false, false⟩
    (101, some "\x7b:05d\x7d.jpg") (by decide) rfl (by decide) (by decide)
  have h4 := config_error_fail_fast.2.2.2
    ⟨"ucf101", "ECO", "scratch", "RGB", "nll", "ck.pth.tar", false, false⟩
    101 "\x7b:05d\x7d.jpg" (by decide) rfl (by decide) rfl (by decide) rfl rfl
  exact ⟨h1, ⟨h2.1, h2.2⟩, h3.1, ⟨h4.1, h4.2.1, h4.2.2.2⟩⟩

/-- Claim C10: for the recognized dataset `hmdb51` the class count is
defined (51) but `rgb_read_format` is never assigned, so any run reaching
loader construction terminates with a `NameError` on `rgb_read_format`
and the loaders are never built. -/
theorem hmdb51_read_format_unbound :
    datasetInfo "hmdb51" = some (51, none) ∧
    (∀ cfg : Config, cfg.dataset = "hmdb51" →
      initStateDict cfg.arch cfg.pretrained_parts = .ok () →
      (dataLength cfg.modality).isSome = true →
      (runMain cfg).2 = some (.nameError "rgb_read_format") ∧
      (runMain cfg).1.loadersBuilt = false ∧
      (runMain cfg).1.trainingStarted = false) := by
  refine ⟨by decide, ?_⟩
  intro cfg hds hinit hdl
  obtain ⟨d, hd⟩ := Option.isSome_iff_exists.mp hdl
  unfold runMain
  rw [hds]
  have hinfo : datasetInfo "hmdb51" = some (51, none) := by decide
  rw [hinfo, hinit, hd]
  refine ⟨rfl, ?_, ?_⟩ <;> (split_ifs <;> rfl)

/-- Witness for C10: `hmdb51` with the ECO/scratch/RGB configuration dies
with the `rgb_read_format` `NameError` before the loaders exist. -/
theorem hmdb51_read_format_unbound_witness :
    (runMain ⟨"hmdb51", "ECO", "scratch", "RGB", "nll", "", false, false⟩).2 =
      some (.nameError "rgb_read_format") ∧
    (runMain ⟨"hmdb51", "ECO", "scratch", "RGB", "nll", "", false, false⟩).1.loadersBuilt
      = false := by
  have h := hmdb51_read_format_unbound.2
    ⟨"hmdb51", "ECO", "scratch", "RGB", "nll", "", false, false⟩ rfl rfl (by decide)
  exact ⟨h.1, h.2.1⟩

end ECO
